import Mathlib

/-!
Shallow embedding of the `ueye-sys` crate (IDS uEye camera FFI bindings),
restricted to the parts that contain behaviour of their own: the manual
`Clone` / `PartialEq` / `Hash` implementations around `#[repr(C, packed)]`
structs with reserved byte arrays, the pure helper functions
(`split_version`, `to_wide`), the handle type aliases, and the
`size` / `area` convenience methods with their orderings.

Machine integer types are modelled by `Nat` (unsigned) and `Int` (signed),
with wrapping written out explicitly where the Rust code performs
arithmetic that can overflow.  A fixed-size byte array `[BYTE; n]` is
modelled by `List BYTE`; none of the modelled operations inspects the
length or the content of a reserved array.  `double` (`f64`) fields are
only ever copied bit-for-bit by the modelled code, so `double` is
modelled by the 64-bit pattern of the value.
-/

/-! ## C scalar types (src/types/discrete.rs) -/

abbrev BYTE := Nat
abbrev WORD := Nat
abbrev DWORD := Nat
abbrev UINT := Nat
abbrev INT := Int
abbrev CHAR := Int
abbrev double := Nat

/-- The `wchar_t` on non-Windows targets is a 32-bit unsigned code unit. -/
abbrev wchar_t := Nat

/-- uEye handle for a camera session: `pub type HIDS = DWORD;`. -/
abbrev HIDS := DWORD

/-- uEye handle for a camera: `pub type HCAM = DWORD;`. -/
abbrev HCAM := DWORD

/-- uEye handle for a falcon board: `pub type HFALC = DWORD;`. -/
abbrev HFALC := DWORD

/-- The `pub const IS_INVALID_HIDS: HIDS = 0;` -/
def IS_INVALID_HIDS : HIDS := 0

/-- The `pub const IS_INVALID_HCAM: HCAM = 0;` -/
def IS_INVALID_HCAM : HCAM := 0

/-- The `pub const IS_INVALID_HFALC: HFALC = 0;` -/
def IS_INVALID_HFALC : HFALC := 0

/-! ## Pure helpers of src/types/discrete.rs -/

/-- The `to_wide` on non-Windows targets:
`s.chars().map(|c| c as wchar_t).chain(std::iter::once(0)).collect()`.
The Rust `&str` is modelled by its list of `char`s; `c as wchar_t` is the
Unicode code point of `c`. -/
def to_wide (s : List Char) : List wchar_t :=
  s.map (fun c => c.toNat) ++ [0]

/-! ## Pure helpers of src/meta.rs -/

/-- The `split_version` from src/meta.rs:
`((version >> 24) & 0xFF, (version >> 16) & 0xFF, version & 0xFFFF)`
on `INT` (= `c_int` = `i32`).  Lean's `Int.shiftRight` is the arithmetic
shift and `Int.land` acts on the two's-complement representation, exactly
as the `i32` operations do for in-range values. -/
def split_version (version : INT) : INT × INT × INT :=
  (Int.land (version >>> (24 : INT)) 0xFF, Int.land (version >>> (16 : INT)) 0xFF,
    Int.land version 0xFFFF)

/-! ## src/types/range.rs -/

/-- The `IS_RANGE_U32`: unsigned range with increment.  Fields are `UINT`
(`u32`); a value is well formed when both bounds are below `2^32`. -/
structure IS_RANGE_U32 where
  u32Min : UINT
  u32Max : UINT
  u32Inc : UINT
deriving DecidableEq

/-- The `IS_RANGE_U32::size`: `self.u32Max - self.u32Min` in `u32`
arithmetic.  In release mode the subtraction wraps modulo `2^32`; the
wrapped result is written out explicitly. -/
def IS_RANGE_U32.size (r : IS_RANGE_U32) : UINT :=
  (r.u32Max + 2 ^ 32 - r.u32Min) % 2 ^ 32

/-- The subtraction in `IS_RANGE_U32::size` underflows (panics in a debug
build) exactly when `u32Max < u32Min`. -/
def IS_RANGE_U32.underflows (r : IS_RANGE_U32) : Prop :=
  r.u32Max < r.u32Min

/-- The `Ord for IS_RANGE_U32`: `self.size().cmp(&other.size())`. -/
def IS_RANGE_U32.cmp (a b : IS_RANGE_U32) : Ordering :=
  compare a.size b.size

/-- The `IS_RANGE_S32`: signed range with increment (`INT` = `i32`). -/
structure IS_RANGE_S32 where
  s32Min : INT
  s32Max : INT
  s32Inc : INT
deriving DecidableEq

/-- The derived `PartialEq` of `IS_RANGE_S32` compares field by field. -/
def IS_RANGE_S32.eq (a b : IS_RANGE_S32) : Bool :=
  decide (a.s32Min = b.s32Min) && decide (a.s32Max = b.s32Max)
    && decide (a.s32Inc = b.s32Inc)

/-! ## src/types/geometry.rs -/

/-- Wrap a mathematical integer to the `i32` value range, as Rust release
mode multiplication does. -/
def wrap32 (x : Int) : Int :=
  (x + 2 ^ 31) % 2 ^ 32 - 2 ^ 31

/-- The `IS_RECT`: position and size of a rectangle (all fields `INT`). -/
structure IS_RECT where
  s32X : INT
  s32Y : INT
  s32Width : INT
  s32Height : INT
deriving DecidableEq

/-- The `IS_RECT::area`: `self.s32X * self.s32Y` — the product of the corner
coordinates, in `i32` arithmetic. -/
def IS_RECT.area (r : IS_RECT) : INT :=
  wrap32 (r.s32X * r.s32Y)

/-- The `Ord for IS_RECT`: `self.area().cmp(&other.area())`. -/
def IS_RECT.cmp (a b : IS_RECT) : Ordering :=
  compare a.area b.area

/-! ## src/image_buffer.rs -/

/-- The `ID_RANGE`: first and last image ID (`INT` fields); `PartialEq` is
derived, so it compares field by field. -/
structure ID_RANGE where
  s32First : INT
  s32Last : INT
deriving DecidableEq

/-- Derived `PartialEq` of `ID_RANGE`. -/
def ID_RANGE.eq (a b : ID_RANGE) : Bool :=
  decide (a.s32First = b.s32First) && decide (a.s32Last = b.s32Last)

/-- Derived `Hash` of `ID_RANGE` feeds `s32First` then `s32Last` to the
hasher; the trace records the sequence of values fed. -/
def ID_RANGE.hashTrace (r : ID_RANGE) : List Int :=
  [r.s32First, r.s32Last]

/-- The `IMGBUF_ITERATION_INFO`: iteration ID, image ID range, and a reserved
array `bReserved: [BYTE; 52]`. -/
structure IMGBUF_ITERATION_INFO where
  u32IterationID : UINT
  rangeImageID : ID_RANGE
  bReserved : List BYTE
deriving DecidableEq

/-- The non-reserved data of an `IMGBUF_ITERATION_INFO`. -/
def IMGBUF_ITERATION_INFO.nonReserved (x : IMGBUF_ITERATION_INFO) :
    UINT × ID_RANGE :=
  (x.u32IterationID, x.rangeImageID)

/-- Manual `PartialEq for IMGBUF_ITERATION_INFO`:
`self.u32IterationID == other.u32IterationID && self.rangeImageID == other.rangeImageID`. -/
def IMGBUF_ITERATION_INFO.eq (a b : IMGBUF_ITERATION_INFO) : Bool :=
  decide (a.u32IterationID = b.u32IterationID) && a.rangeImageID.eq b.rangeImageID

/-- Manual `Clone for IMGBUF_ITERATION_INFO`: the clone is allocated with
`MaybeUninit::uninit().assume_init()` and only the non-reserved fields are
copied, so `bReserved` holds arbitrary junk — modelled by the extra
`uninit` argument. -/
def IMGBUF_ITERATION_INFO.clone (x : IMGBUF_ITERATION_INFO)
    (uninit : List BYTE) : IMGBUF_ITERATION_INFO :=
  { u32IterationID := x.u32IterationID
    rangeImageID := x.rangeImageID
    bReserved := uninit }

/-- Manual `Hash for IMGBUF_ITERATION_INFO`: hashes `u32IterationID`,
then `rangeImageID`; `bReserved` is never fed to the hasher. -/
def IMGBUF_ITERATION_INFO.hashTrace (x : IMGBUF_ITERATION_INFO) : List Int :=
  (x.u32IterationID : Int) :: x.rangeImageID.hashTrace

/-! ## src/eth.rs -/

/-- The `UEYE_ETH_ADDR_IPV4_by`: byte-wise IPv4 address view. -/
structure UEYE_ETH_ADDR_IPV4_by where
  by1 : BYTE
  by2 : BYTE
  by3 : BYTE
  by4 : BYTE
deriving DecidableEq

/-- Manual `PartialEq for UEYE_ETH_ADDR_IPV4_by`: compares the four bytes. -/
def UEYE_ETH_ADDR_IPV4_by.eq (a b : UEYE_ETH_ADDR_IPV4_by) : Bool :=
  decide (a.by1 = b.by1) && decide (a.by2 = b.by2) && decide (a.by3 = b.by3)
    && decide (a.by4 = b.by4)

/-- Derived `Hash for UEYE_ETH_ADDR_IPV4_by` feeds the four byte fields in
declaration order. -/
def UEYE_ETH_ADDR_IPV4_by.hashTrace (a : UEYE_ETH_ADDR_IPV4_by) : List Nat :=
  [a.by1, a.by2, a.by3, a.by4]

/-- The `UEYE_ETH_ADDR_IPV4`: a `#[repr(C, packed(1))]` union of the byte-wise
view `by` and the `DWORD` view `dwAddr`.  The union's entire state is its
four bytes, so it is modelled by the byte-wise view (the field is named
`by_` because `by` is a Lean keyword); the `dwAddr` view is the
little-endian reassembly of those bytes. -/
structure UEYE_ETH_ADDR_IPV4 where
  by_ : UEYE_ETH_ADDR_IPV4_by
deriving DecidableEq

/-- The `dwAddr` union view: the same four bytes read as a little-endian
`DWORD`. -/
def UEYE_ETH_ADDR_IPV4.dwAddr (a : UEYE_ETH_ADDR_IPV4) : DWORD :=
  a.by_.by1 + 2 ^ 8 * a.by_.by2 + 2 ^ 16 * a.by_.by3 + 2 ^ 24 * a.by_.by4

/-- Manual `PartialEq for UEYE_ETH_ADDR_IPV4`: copies the `by` view out of
the union on both sides and compares the views. -/
def UEYE_ETH_ADDR_IPV4.eq (a b : UEYE_ETH_ADDR_IPV4) : Bool :=
  a.by_.eq b.by_

/-- Manual `Hash for UEYE_ETH_ADDR_IPV4`: copies the `by` view out of the
union and hashes it, so only the four bytes are fed to the hasher. -/
def UEYE_ETH_ADDR_IPV4.hashTrace (a : UEYE_ETH_ADDR_IPV4) : List Nat :=
  a.by_.hashTrace

/-- The `UEYE_ETH_ADDR_MAC`: `abyOctet: [BYTE; 6]`, derived `PartialEq`. -/
structure UEYE_ETH_ADDR_MAC where
  abyOctet : List BYTE
deriving DecidableEq

/-- The `UEYE_ETH_IP_CONFIGURATION`: address, subnet mask and a reserved
array `reserved: [BYTE; 4]`. -/
structure UEYE_ETH_IP_CONFIGURATION where
  ipAddress : UEYE_ETH_ADDR_IPV4
  ipSubnetmask : UEYE_ETH_ADDR_IPV4
  reserved : List BYTE
deriving DecidableEq

/-- The non-reserved data of a `UEYE_ETH_IP_CONFIGURATION`. -/
def UEYE_ETH_IP_CONFIGURATION.nonReserved (c : UEYE_ETH_IP_CONFIGURATION) :
    UEYE_ETH_ADDR_IPV4 × UEYE_ETH_ADDR_IPV4 :=
  (c.ipAddress, c.ipSubnetmask)

/-- Manual `PartialEq for UEYE_ETH_IP_CONFIGURATION`:
`self.ipAddress.eq(&other.ipAddress) && self.ipSubnetmask.eq(&other.ipSubnetmask)`;
the reserved bytes are skipped. -/
def UEYE_ETH_IP_CONFIGURATION.eq (a b : UEYE_ETH_IP_CONFIGURATION) : Bool :=
  a.ipAddress.eq b.ipAddress && a.ipSubnetmask.eq b.ipSubnetmask

/-- The `UEYE_ETH_DEVICESTATUS`: fieldless `#[repr(u32)]` status enum; the
derived `PartialEq` compares the discriminant, i.e. the variant. -/
inductive UEYE_ETH_DEVICESTATUS where
  | IS_ETH_DEVSTATUS_READY_TO_OPERATE
  | IS_ETH_DEVSTATUS_TESTING_IP_CURRENT
  | IS_ETH_DEVSTATUS_TESTING_IP_PERSISTENT
  | IS_ETH_DEVSTATUS_TESTING_IP_RANGE
  | IS_ETH_DEVSTATUS_INAPPLICABLE_IP_CURRENT
  | IS_ETH_DEVSTATUS_INAPPLICABLE_IP_PERSISTENT
  | IS_ETH_DEVSTATUS_INAPPLICABLE_IP_RANGE
  | IS_ETH_DEVSTATUS_UNPAIRED
  | IS_ETH_DEVSTATUS_PAIRING_IN_PROGRESS
  | IS_ETH_DEVSTATUS_PAIRED
  | IS_ETH_DEVSTATUS_FORCE_100MBPS
  | IS_ETH_DEVSTATUS_NO_COMPORT
  | IS_ETH_DEVSTATUS_RECEIVING_FW_STARTER
  | IS_ETH_DEVSTATUS_RECEIVING_FW_RUNTIME
  | IS_ETH_DEVSTATUS_INAPPLICABLE_FW_RUNTIME
  | IS_ETH_DEVSTATUS_INAPPLICABLE_FW_STARTER
  | IS_ETH_DEVSTATUS_REBOOTING_FW_RUNTIME
  | IS_ETH_DEVSTATUS_REBOOTING_FW_STARTER
  | IS_ETH_DEVSTATUS_REBOOTING_FW_FAILSAFE
  | IS_ETH_DEVSTATUS_RUNTIME_FW_ERR0
deriving DecidableEq

/-- The `UEYE_ETH_CONTROLSTATUS`: fieldless `#[repr(u32)]` status enum; the
derived `PartialEq` compares the discriminant, i.e. the variant. -/
inductive UEYE_ETH_CONTROLSTATUS where
  | IS_ETH_CTRLSTATUS_AVAILABLE
  | IS_ETH_CTRLSTATUS_ACCESSIBLE1
  | IS_ETH_CTRLSTATUS_ACCESSIBLE2
  | IS_ETH_CTRLSTATUS_PERSISTENT_IP_USED
  | IS_ETH_CTRLSTATUS_COMPATIBLE
  | IS_ETH_CTRLSTATUS_ADAPTER_ON_DHCP
  | IS_ETH_CTRLSTATUS_ADAPTER_SETUP_OK
  | IS_ETH_CTRLSTATUS_UNPAIRING_IN_PROGRESS
  | IS_ETH_CTRLSTATUS_PAIRING_IN_PROGRESS
  | IS_ETH_CTRLSTATUS_PAIRED
  | IS_ETH_CTRLSTATUS_OPENED
  | IS_ETH_CTRLSTATUS_FW_UPLOAD_STARTER
  | IS_ETH_CTRLSTATUS_FW_UPLOAD_RUNTIME
  | IS_ETH_CTRLSTATUS_REBOOTING
  | IS_ETH_CTRLSTATUS_BOOTBOOST_ENABLED
  | IS_ETH_CTRLSTATUS_BOOTBOOST_ACTIVE
  | IS_ETH_CTRLSTATUS_INITIALIZED
  | IS_ETH_CTRLSTATUS_TO_BE_DELETED
  | IS_ETH_CTRLSTATUS_TO_BE_REMOVED
deriving DecidableEq

/-- The `UEYE_ETH_DEVICE_INFO_CONTROL`: device ID, control status, and two
reserved arrays `reserved_1: [BYTE; 80]`, `reserved_2: [BYTE; 64]`. -/
structure UEYE_ETH_DEVICE_INFO_CONTROL where
  dwDeviceID : DWORD
  dwControlStatus : UEYE_ETH_CONTROLSTATUS
  reserved_1 : List BYTE
  reserved_2 : List BYTE
deriving DecidableEq

/-- The non-reserved data of a `UEYE_ETH_DEVICE_INFO_CONTROL`. -/
def UEYE_ETH_DEVICE_INFO_CONTROL.nonReserved
    (c : UEYE_ETH_DEVICE_INFO_CONTROL) : DWORD × UEYE_ETH_CONTROLSTATUS :=
  (c.dwDeviceID, c.dwControlStatus)

/-- Manual `PartialEq for UEYE_ETH_DEVICE_INFO_CONTROL`: copies
`dwDeviceID` and `dwControlStatus` into aligned locals and compares those;
the reserved arrays are skipped. -/
def UEYE_ETH_DEVICE_INFO_CONTROL.eq (a b : UEYE_ETH_DEVICE_INFO_CONTROL) : Bool :=
  decide (a.dwDeviceID = b.dwDeviceID)
    && decide (a.dwControlStatus = b.dwControlStatus)

/-- The `UEYE_ETH_AUTOCFG_IP_SETUP`: begin/end of the auto-configuration IP
range and a reserved array `reserved: [BYTE; 4]`. -/
structure UEYE_ETH_AUTOCFG_IP_SETUP where
  ipAutoCfgIpRangeBegin : UEYE_ETH_ADDR_IPV4
  ipAutoCfgIpRangeEnd : UEYE_ETH_ADDR_IPV4
  reserved : List BYTE
deriving DecidableEq

/-- The non-reserved data of a `UEYE_ETH_AUTOCFG_IP_SETUP`. -/
def UEYE_ETH_AUTOCFG_IP_SETUP.nonReserved (s : UEYE_ETH_AUTOCFG_IP_SETUP) :
    UEYE_ETH_ADDR_IPV4 × UEYE_ETH_ADDR_IPV4 :=
  (s.ipAutoCfgIpRangeBegin, s.ipAutoCfgIpRangeEnd)

/-- Manual `PartialEq for UEYE_ETH_AUTOCFG_IP_SETUP`: compares the range
begin and end; the reserved bytes are skipped. -/
def UEYE_ETH_AUTOCFG_IP_SETUP.eq (a b : UEYE_ETH_AUTOCFG_IP_SETUP) : Bool :=
  a.ipAutoCfgIpRangeBegin.eq b.ipAutoCfgIpRangeBegin
    && a.ipAutoCfgIpRangeEnd.eq b.ipAutoCfgIpRangeEnd

/-- The `UEYE_ETH_DEVICE_INFO_HEARTBEAT`: the heartbeat telegram, with
reserved arrays `reserved_1: [BYTE; 2]`, `reserved_2: [BYTE; 4]`,
`reserved_4: [BYTE; 2]`, `reserved_5: [BYTE; 84]`, `reserved_6: [BYTE; 64]`
(`abySerialNumber: [BYTE; 12]`, `abyUserSpace: [BYTE; 8]`). -/
structure UEYE_ETH_DEVICE_INFO_HEARTBEAT where
  abySerialNumber : List BYTE
  byDeviceType : BYTE
  byCameraID : BYTE
  wSensorID : WORD
  wSizeImgMem_MB : WORD
  reserved_1 : List BYTE
  dwVerStarterFirmware : DWORD
  dwVerRuntimeFirmware : DWORD
  dwStatus : UEYE_ETH_DEVICESTATUS
  reserved_2 : List BYTE
  wTemperature : WORD
  wLinkSpeed_Mb : WORD
  macDevice : UEYE_ETH_ADDR_MAC
  wComportOffset : WORD
  ipcfgPersistentIpCfg : UEYE_ETH_IP_CONFIGURATION
  ipcfgCurrentIpCfg : UEYE_ETH_IP_CONFIGURATION
  macPairedHost : UEYE_ETH_ADDR_MAC
  reserved_4 : List BYTE
  ipPairedHostIp : UEYE_ETH_ADDR_IPV4
  ipAutoCfgIpRangeBegin : UEYE_ETH_ADDR_IPV4
  ipAutoCfgIpRangeEnd : UEYE_ETH_ADDR_IPV4
  abyUserSpace : List BYTE
  reserved_5 : List BYTE
  reserved_6 : List BYTE
deriving DecidableEq

/-- The non-reserved data of a `UEYE_ETH_DEVICE_INFO_HEARTBEAT`.  The two
nested IP configurations are themselves projected to their non-reserved
part, because the manual equality compares them with the nested manual
`eq`, which skips the nested reserved bytes. -/
def UEYE_ETH_DEVICE_INFO_HEARTBEAT.nonReserved
    (h : UEYE_ETH_DEVICE_INFO_HEARTBEAT) :
    List BYTE × BYTE × BYTE × WORD × WORD × DWORD × DWORD
      × UEYE_ETH_DEVICESTATUS × WORD × WORD × UEYE_ETH_ADDR_MAC × WORD
      × (UEYE_ETH_ADDR_IPV4 × UEYE_ETH_ADDR_IPV4)
      × (UEYE_ETH_ADDR_IPV4 × UEYE_ETH_ADDR_IPV4)
      × UEYE_ETH_ADDR_MAC × UEYE_ETH_ADDR_IPV4 × UEYE_ETH_ADDR_IPV4
      × UEYE_ETH_ADDR_IPV4 × List BYTE :=
  (h.abySerialNumber, h.byDeviceType, h.byCameraID, h.wSensorID,
    h.wSizeImgMem_MB, h.dwVerStarterFirmware, h.dwVerRuntimeFirmware,
    h.dwStatus, h.wTemperature, h.wLinkSpeed_Mb, h.macDevice,
    h.wComportOffset, h.ipcfgPersistentIpCfg.nonReserved,
    h.ipcfgCurrentIpCfg.nonReserved, h.macPairedHost, h.ipPairedHostIp,
    h.ipAutoCfgIpRangeBegin, h.ipAutoCfgIpRangeEnd, h.abyUserSpace)

/-- Manual `PartialEq for UEYE_ETH_DEVICE_INFO_HEARTBEAT`: copies every
packed scalar field into an aligned local on both sides and compares the
nineteen non-reserved fields (the nested IP configurations and addresses
through their own manual `eq`); `reserved_1`, `reserved_2`, `reserved_4`,
`reserved_5` and `reserved_6` are skipped. -/
def UEYE_ETH_DEVICE_INFO_HEARTBEAT.eq
    (a b : UEYE_ETH_DEVICE_INFO_HEARTBEAT) : Bool :=
  decide (a.abySerialNumber = b.abySerialNumber)
    && decide (a.byDeviceType = b.byDeviceType)
    && decide (a.byCameraID = b.byCameraID)
    && decide (a.wSensorID = b.wSensorID)
    && decide (a.wSizeImgMem_MB = b.wSizeImgMem_MB)
    && decide (a.dwVerStarterFirmware = b.dwVerStarterFirmware)
    && decide (a.dwVerRuntimeFirmware = b.dwVerRuntimeFirmware)
    && decide (a.dwStatus = b.dwStatus)
    && decide (a.wTemperature = b.wTemperature)
    && decide (a.wLinkSpeed_Mb = b.wLinkSpeed_Mb)
    && decide (a.macDevice = b.macDevice)
    && decide (a.wComportOffset = b.wComportOffset)
    && a.ipcfgPersistentIpCfg.eq b.ipcfgPersistentIpCfg
    && a.ipcfgCurrentIpCfg.eq b.ipcfgCurrentIpCfg
    && decide (a.macPairedHost = b.macPairedHost)
    && a.ipPairedHostIp.eq b.ipPairedHostIp
    && a.ipAutoCfgIpRangeBegin.eq b.ipAutoCfgIpRangeBegin
    && a.ipAutoCfgIpRangeEnd.eq b.ipAutoCfgIpRangeEnd
    && decide (a.abyUserSpace = b.abyUserSpace)

/-! ## src/auto_parameter.rs -/

/-- The `AES_PEAK_WHITE_CONFIGURATION_RANGE`: three `IS_RANGE_S32` ranges and
a reserved array `reserved: [CHAR; 32]`. -/
structure AES_PEAK_WHITE_CONFIGURATION_RANGE where
  rangeFrameSkip : IS_RANGE_S32
  rangeHysteresis : IS_RANGE_S32
  rangeReference : IS_RANGE_S32
  reserved : List CHAR
deriving DecidableEq

/-- The non-reserved data of an `AES_PEAK_WHITE_CONFIGURATION_RANGE`. -/
def AES_PEAK_WHITE_CONFIGURATION_RANGE.nonReserved
    (x : AES_PEAK_WHITE_CONFIGURATION_RANGE) :
    IS_RANGE_S32 × IS_RANGE_S32 × IS_RANGE_S32 :=
  (x.rangeFrameSkip, x.rangeHysteresis, x.rangeReference)

/-- Manual `PartialEq for AES_PEAK_WHITE_CONFIGURATION_RANGE`: compares
the three ranges; the reserved bytes are skipped. -/
def AES_PEAK_WHITE_CONFIGURATION_RANGE.eq
    (a b : AES_PEAK_WHITE_CONFIGURATION_RANGE) : Bool :=
  a.rangeFrameSkip.eq b.rangeFrameSkip && a.rangeHysteresis.eq b.rangeHysteresis
    && a.rangeReference.eq b.rangeReference

/-- Manual `Clone for AES_PEAK_WHITE_CONFIGURATION_RANGE`: allocated with
`MaybeUninit::uninit().assume_init()`, only the three ranges are copied;
`reserved` holds arbitrary junk, modelled by the `uninit` argument. -/
def AES_PEAK_WHITE_CONFIGURATION_RANGE.clone
    (x : AES_PEAK_WHITE_CONFIGURATION_RANGE) (uninit : List CHAR) :
    AES_PEAK_WHITE_CONFIGURATION_RANGE :=
  { rangeFrameSkip := x.rangeFrameSkip
    rangeHysteresis := x.rangeHysteresis
    rangeReference := x.rangeReference
    reserved := uninit }

/-! ## src/aoi.rs -/

/-- The `AOI_SEQUENCE_PARAMS`: parameters of an AOI in sequence mode, with a
reserved array `byReserved: [BYTE; 60]`.  The two `double` fields are
modelled by their 64-bit patterns (they are only ever copied). -/
structure AOI_SEQUENCE_PARAMS where
  s32AOIIndex : INT
  s32NumberOfCycleRepetitions : INT
  s32X : INT
  s32Y : INT
  dblExposure : double
  s32Gain : INT
  s32BinningMode : INT
  s32SubsamplingMode : INT
  s32DetachImageParameters : INT
  dblScalerFactor : double
  s32InUse : INT
  byReserved : List BYTE
deriving DecidableEq

/-- The non-reserved data of an `AOI_SEQUENCE_PARAMS`. -/
def AOI_SEQUENCE_PARAMS.nonReserved (x : AOI_SEQUENCE_PARAMS) :
    INT × INT × INT × INT × double × INT × INT × INT × INT × double × INT :=
  (x.s32AOIIndex, x.s32NumberOfCycleRepetitions, x.s32X, x.s32Y,
    x.dblExposure, x.s32Gain, x.s32BinningMode, x.s32SubsamplingMode,
    x.s32DetachImageParameters, x.dblScalerFactor, x.s32InUse)

/-- Manual `Clone for AOI_SEQUENCE_PARAMS`: allocated with
`MaybeUninit::uninit().assume_init()`, the eleven data fields are copied;
`byReserved` holds arbitrary junk, modelled by the `uninit` argument. -/
def AOI_SEQUENCE_PARAMS.clone (x : AOI_SEQUENCE_PARAMS)
    (uninit : List BYTE) : AOI_SEQUENCE_PARAMS :=
  { s32AOIIndex := x.s32AOIIndex
    s32NumberOfCycleRepetitions := x.s32NumberOfCycleRepetitions
    s32X := x.s32X
    s32Y := x.s32Y
    dblExposure := x.dblExposure
    s32Gain := x.s32Gain
    s32BinningMode := x.s32BinningMode
    s32SubsamplingMode := x.s32SubsamplingMode
    s32DetachImageParameters := x.s32DetachImageParameters
    dblScalerFactor := x.dblScalerFactor
    s32InUse := x.s32InUse
    byReserved := uninit }

/-! ## src/device_feature.rs -/

/-- The `IS_MULTI_INTEGRATION_SCOPE`: multi-integration setting ranges, with a
reserved array `m_bReserved: [BYTE; 32]`.  The eleven `double` fields are
modelled by their 64-bit patterns (they are only ever copied). -/
structure IS_MULTI_INTEGRATION_SCOPE where
  dblMinIntegration_ms : double
  dblMaxIntegration_ms : double
  dblIntegrationGranularity_ms : double
  dblMinPause_ms : double
  dblMaxPause_ms : double
  dblPauseGranularity_ms : double
  dblMinCycle_ms : double
  dblMaxCycle_ms : double
  dblCycleGranularity_ms : double
  dblMinTriggerCycle_ms : double
  dblMinTriggerDuration_ms : double
  nMinNumberOfCycles : UINT
  nMaxNumberOfCycles : UINT
  m_bReserved : List BYTE
deriving DecidableEq

/-- The non-reserved data of an `IS_MULTI_INTEGRATION_SCOPE`. -/
def IS_MULTI_INTEGRATION_SCOPE.nonReserved (x : IS_MULTI_INTEGRATION_SCOPE) :
    double × double × double × double × double × double × double × double
      × double × double × double × UINT × UINT :=
  (x.dblMinIntegration_ms, x.dblMaxIntegration_ms,
    x.dblIntegrationGranularity_ms, x.dblMinPause_ms, x.dblMaxPause_ms,
    x.dblPauseGranularity_ms, x.dblMinCycle_ms, x.dblMaxCycle_ms,
    x.dblCycleGranularity_ms, x.dblMinTriggerCycle_ms,
    x.dblMinTriggerDuration_ms, x.nMinNumberOfCycles, x.nMaxNumberOfCycles)

/-- Manual `Clone for IS_MULTI_INTEGRATION_SCOPE`: allocated with
`MaybeUninit::uninit().assume_init()`, the thirteen data fields are
copied; `m_bReserved` holds arbitrary junk, modelled by the `uninit`
argument. -/
def IS_MULTI_INTEGRATION_SCOPE.clone (x : IS_MULTI_INTEGRATION_SCOPE)
    (uninit : List BYTE) : IS_MULTI_INTEGRATION_SCOPE :=
  { dblMinIntegration_ms := x.dblMinIntegration_ms
    dblMaxIntegration_ms := x.dblMaxIntegration_ms
    dblIntegrationGranularity_ms := x.dblIntegrationGranularity_ms
    dblMinPause_ms := x.dblMinPause_ms
    dblMaxPause_ms := x.dblMaxPause_ms
    dblPauseGranularity_ms := x.dblPauseGranularity_ms
    dblMinCycle_ms := x.dblMinCycle_ms
    dblMaxCycle_ms := x.dblMaxCycle_ms
    dblCycleGranularity_ms := x.dblCycleGranularity_ms
    dblMinTriggerCycle_ms := x.dblMinTriggerCycle_ms
    dblMinTriggerDuration_ms := x.dblMinTriggerDuration_ms
    nMinNumberOfCycles := x.nMinNumberOfCycles
    nMaxNumberOfCycles := x.nMaxNumberOfCycles
    m_bReserved := uninit }

/-! ## Helper lemmas -/

/-- The derived equality test of `ID_RANGE` decides structural equality. -/
theorem id_range_eq_true_iff (a b : ID_RANGE) : a.eq b = true ↔ a = b := by
  cases a; cases b; simp [ID_RANGE.eq]

/-- The derived equality test of `IS_RANGE_S32` decides structural
equality. -/
theorem is_range_s32_eq_true_iff (a b : IS_RANGE_S32) : a.eq b = true ↔ a = b := by
  cases a; cases b; simp [IS_RANGE_S32.eq, and_assoc]

/-- The manual equality test of the union `UEYE_ETH_ADDR_IPV4` decides
structural equality (the union has no reserved bytes: its whole state is
the four address bytes). -/
theorem ipv4_eq_true_iff (a b : UEYE_ETH_ADDR_IPV4) :
    a.eq b = true ↔ a = b := by
  obtain ⟨⟨a1, a2, a3, a4⟩⟩ := a; obtain ⟨⟨b1, b2, b3, b4⟩⟩ := b
  simp [UEYE_ETH_ADDR_IPV4.eq, UEYE_ETH_ADDR_IPV4_by.eq, and_assoc]

/-- The manual equality test of `UEYE_ETH_IP_CONFIGURATION` decides
equality of the non-reserved data. -/
theorem ip_configuration_eq_true_iff (a b : UEYE_ETH_IP_CONFIGURATION) :
    a.eq b = true ↔ a.nonReserved = b.nonReserved := by
  simp [UEYE_ETH_IP_CONFIGURATION.eq, UEYE_ETH_IP_CONFIGURATION.nonReserved,
    ipv4_eq_true_iff, Prod.ext_iff]

/-- Wrapping `u32` subtraction agrees with exact subtraction when the
minuend is in range and no underflow occurs. -/
theorem wrapped_sub_eq_sub (mn mx : Nat) (h1 : mx < 2 ^ 32) (h2 : mn ≤ mx) :
    (mx + 2 ^ 32 - mn) % 2 ^ 32 = mx - mn := by omega

/-- Arithmetic right shift of a non-negative integer is the `Nat` shift. -/
theorem int_shiftRight_ofNat (m n : Nat) :
    (Int.ofNat m) >>> (Int.ofNat n) = Int.ofNat (m >>> n) := by
  cases n <;> rfl

/-- Congruence of `Int.ofNat` for rewriting component goals. -/
theorem int_ofNat_congr (a b : Nat) (h : a = b) : Int.ofNat a = Int.ofNat b :=
  congrArg Int.ofNat h

/-! ## Claims -/

/-- C1: for each struct that contains a reserved byte array and ships a
manual `PartialEq` (IMGBUF_ITERATION_INFO,
AES_PEAK_WHITE_CONFIGURATION_RANGE, UEYE_ETH_IP_CONFIGURATION,
UEYE_ETH_DEVICE_INFO_CONTROL, UEYE_ETH_AUTOCFG_IP_SETUP,
UEYE_ETH_DEVICE_INFO_HEARTBEAT), `eq` returns `true` exactly when the
non-reserved fields of the two values agree (with reserved bytes skipped
at every nesting level, as the nested manual `eq`s skip them); in
particular, two values that differ only in their reserved bytes compare
equal. -/
theorem manualEq_true_iff_nonReserved_eq :
    (∀ a b : IMGBUF_ITERATION_INFO,
      a.eq b = true ↔ a.nonReserved = b.nonReserved)
  ∧ (∀ a b : AES_PEAK_WHITE_CONFIGURATION_RANGE,
      a.eq b = true ↔ a.nonReserved = b.nonReserved)
  ∧ (∀ a b : UEYE_ETH_IP_CONFIGURATION,
      a.eq b = true ↔ a.nonReserved = b.nonReserved)
  ∧ (∀ a b : UEYE_ETH_DEVICE_INFO_CONTROL,
      a.eq b = true ↔ a.nonReserved = b.nonReserved)
  ∧ (∀ a b : UEYE_ETH_AUTOCFG_IP_SETUP,
      a.eq b = true ↔ a.nonReserved = b.nonReserved)
  ∧ (∀ a b : UEYE_ETH_DEVICE_INFO_HEARTBEAT,
      a.eq b = true ↔ a.nonReserved = b.nonReserved)
  ∧ (∀ (a : IMGBUF_ITERATION_INFO) r,
      ({ a with bReserved := r }).eq a = true)
  ∧ (∀ (a : AES_PEAK_WHITE_CONFIGURATION_RANGE) r,
      ({ a with reserved := r }).eq a = true)
  ∧ (∀ (a : UEYE_ETH_IP_CONFIGURATION) r,
      ({ a with reserved := r }).eq a = true)
  ∧ (∀ (a : UEYE_ETH_DEVICE_INFO_CONTROL) r1 r2,
      ({ a with reserved_1 := r1, reserved_2 := r2 }).eq a = true)
  ∧ (∀ (a : UEYE_ETH_AUTOCFG_IP_SETUP) r,
      ({ a with reserved := r }).eq a = true)
  ∧ (∀ (a : UEYE_ETH_DEVICE_INFO_HEARTBEAT) r1 r2 r4 r5 r6,
      ({ a with reserved_1 := r1, reserved_2 := r2, reserved_4 := r4,
                reserved_5 := r5, reserved_6 := r6 }).eq a = true) := by
  refine ⟨?_, ?_, ?_, ?_, ?_, ?_, ?_, ?_, ?_, ?_, ?_, ?_⟩
  · intro a b
    simp [IMGBUF_ITERATION_INFO.eq, IMGBUF_ITERATION_INFO.nonReserved,
      id_range_eq_true_iff, Prod.ext_iff]
  · intro a b
    simp [AES_PEAK_WHITE_CONFIGURATION_RANGE.eq,
      AES_PEAK_WHITE_CONFIGURATION_RANGE.nonReserved, is_range_s32_eq_true_iff,
      Prod.ext_iff, and_assoc]
  · intro a b
    exact ip_configuration_eq_true_iff a b
  · intro a b
    simp [UEYE_ETH_DEVICE_INFO_CONTROL.eq,
      UEYE_ETH_DEVICE_INFO_CONTROL.nonReserved, Prod.ext_iff]
  · intro a b
    simp [UEYE_ETH_AUTOCFG_IP_SETUP.eq, UEYE_ETH_AUTOCFG_IP_SETUP.nonReserved,
      ipv4_eq_true_iff, Prod.ext_iff]
  · intro a b
    simp [UEYE_ETH_DEVICE_INFO_HEARTBEAT.eq,
      UEYE_ETH_DEVICE_INFO_HEARTBEAT.nonReserved,
      ip_configuration_eq_true_iff, ipv4_eq_true_iff,
      Prod.ext_iff, and_assoc]
  · intro a r
    simp [IMGBUF_ITERATION_INFO.eq, id_range_eq_true_iff]
  · intro a r
    simp [AES_PEAK_WHITE_CONFIGURATION_RANGE.eq, is_range_s32_eq_true_iff]
  · intro a r
    simp [UEYE_ETH_IP_CONFIGURATION.eq, ipv4_eq_true_iff]
  · intro a r1 r2
    simp [UEYE_ETH_DEVICE_INFO_CONTROL.eq]
  · intro a r
    simp [UEYE_ETH_AUTOCFG_IP_SETUP.eq, ipv4_eq_true_iff]
  · intro a r1 r2 r4 r5 r6
    simp [UEYE_ETH_DEVICE_INFO_HEARTBEAT.eq,
      ip_configuration_eq_true_iff, ipv4_eq_true_iff]

/-- C2 (counterexample): the claim that every function the crate defines
forwards directly into the vendor DLL, with no public function computing
an original result in Rust, is refuted by `split_version`
(src/meta.rs): a public crate function whose result is computed entirely
in Rust, and which depends non-trivially on its input — evaluated here at
the concrete inputs `73404305` and `0`. -/
theorem split_version_computes_original_result :
    split_version 73404305 = (4, 96, 3985) ∧ split_version 0 = (0, 0, 0)
      ∧ split_version 73404305 ≠ split_version 0 := by
  decide

/-- C2 (amended): not every function of the crate forwards into the
vendor library — the crate also defines pure helper functions computed in
Rust (`split_version`, `get_version_string`, `to_wide`, and the `size` /
`area` convenience methods).  These helpers are small decoders, not
camera logic: `split_version` decodes the documented bit layout of
`is_GetDLLVersion` (bits 31…24 major, 23…16 minor, 15…0 build) for every
non-negative packed version word. -/
theorem split_version_decodes_packed_version (major minor build : Nat)
    (hmaj : major < 128) (hmin : minor < 256) (hbuild : build < 65536) :
    split_version (Int.ofNat (major * 2 ^ 24 + minor * 2 ^ 16 + build))
      = (Int.ofNat major, Int.ofNat minor, Int.ofNat build) := by
  unfold split_version
  have h24 : (24 : INT) = Int.ofNat 24 := rfl
  have h16 : (16 : INT) = Int.ofNat 16 := rfl
  rw [h24, h16, int_shiftRight_ofNat, int_shiftRight_ofNat]
  have hland : ∀ a b : Nat,
      Int.land (Int.ofNat a) (Int.ofNat b) = Int.ofNat (a &&& b) :=
    fun _ _ => rfl
  have hFF : (0xFF : INT) = Int.ofNat 0xFF := rfl
  have hFFFF : (0xFFFF : INT) = Int.ofNat 0xFFFF := rfl
  rw [hFF, hFFFF, hland, hland, hland]
  have e1 : (0xFF : Nat) = 2 ^ 8 - 1 := rfl
  have e2 : (0xFFFF : Nat) = 2 ^ 16 - 1 := rfl
  rw [e1, e2, Nat.and_pow_two_sub_one_eq_mod, Nat.and_pow_two_sub_one_eq_mod,
    Nat.and_pow_two_sub_one_eq_mod, Nat.shiftRight_eq_div_pow,
    Nat.shiftRight_eq_div_pow]
  refine Prod.ext (int_ofNat_congr _ _ (by omega))
    (Prod.ext (int_ofNat_congr _ _ (by omega)) (int_ofNat_congr _ _ (by omega)))

/-- Witness for the amended C2 theorem at the crate's own documented
example version `4.96.3985` (`73404305`). -/
theorem split_version_decodes_packed_version_witness :
    split_version (Int.ofNat (4 * 2 ^ 24 + 96 * 2 ^ 16 + 3985))
      = (Int.ofNat 4, Int.ofNat 96, Int.ofNat 3985) :=
  split_version_decodes_packed_version 4 96 3985 (by decide) (by decide)
    (by decide)

/-- C3: for each struct with a reserved byte array and a manual `Clone`
(IMGBUF_ITERATION_INFO, AES_PEAK_WHITE_CONFIGURATION_RANGE,
AOI_SEQUENCE_PARAMS, IS_MULTI_INTEGRATION_SCOPE), the clone — whose
reserved array is left uninitialized, modelled by the arbitrary `u`
argument — agrees with the original on every non-reserved field;
consequently, for the two of these types that also define equality,
`x.clone() == x` under the crate's manual `PartialEq`. -/
theorem manualClone_preserves_nonReserved :
    (∀ (x : IMGBUF_ITERATION_INFO) u, (x.clone u).nonReserved = x.nonReserved)
  ∧ (∀ (x : AES_PEAK_WHITE_CONFIGURATION_RANGE) u,
      (x.clone u).nonReserved = x.nonReserved)
  ∧ (∀ (x : AOI_SEQUENCE_PARAMS) u, (x.clone u).nonReserved = x.nonReserved)
  ∧ (∀ (x : IS_MULTI_INTEGRATION_SCOPE) u,
      (x.clone u).nonReserved = x.nonReserved)
  ∧ (∀ (x : IMGBUF_ITERATION_INFO) u, (x.clone u).eq x = true)
  ∧ (∀ (x : AES_PEAK_WHITE_CONFIGURATION_RANGE) u, (x.clone u).eq x = true) := by
  refine ⟨fun x u => rfl, fun x u => rfl, fun x u => rfl, fun x u => rfl,
    ?_, ?_⟩
  · intro x u
    simp [IMGBUF_ITERATION_INFO.clone, IMGBUF_ITERATION_INFO.eq,
      id_range_eq_true_iff]
  · intro x u
    simp [AES_PEAK_WHITE_CONFIGURATION_RANGE.clone,
      AES_PEAK_WHITE_CONFIGURATION_RANGE.eq, is_range_s32_eq_true_iff]

/-- C4: for the two types with a manual `Hash` (UEYE_ETH_ADDR_IPV4 and
IMGBUF_ITERATION_INFO), the hash skips the reserved/overlapping bytes
exactly as equality does: whenever two values are equal under the manual
`PartialEq`, they feed the identical sequence of data to the hasher. -/
theorem manualHash_trace_eq_of_manualEq :
    (∀ a b : UEYE_ETH_ADDR_IPV4, a.eq b = true → a.hashTrace = b.hashTrace)
  ∧ (∀ a b : IMGBUF_ITERATION_INFO,
      a.eq b = true → a.hashTrace = b.hashTrace) := by
  constructor
  · intro a b h
    rw [ipv4_eq_true_iff] at h
    rw [h]
  · intro a b h
    simp [IMGBUF_ITERATION_INFO.eq, id_range_eq_true_iff] at h
    simp [IMGBUF_ITERATION_INFO.hashTrace, h.1, h.2]

/-- Witness for C4: two `IMGBUF_ITERATION_INFO` values that differ only
in their reserved bytes compare equal and hash identically. -/
theorem manualHash_trace_eq_of_manualEq_witness :
    (⟨5, ⟨1, 2⟩, [0]⟩ : IMGBUF_ITERATION_INFO).hashTrace
      = (⟨5, ⟨1, 2⟩, [7, 7]⟩ : IMGBUF_ITERATION_INFO).hashTrace :=
  manualHash_trace_eq_of_manualEq.2 _ _ (by decide)

/-- C6: the handle types `HIDS` and `HCAM` are both aliases of the 32-bit
unsigned `DWORD` type (modelled by `Nat`), so the types coincide and every
value of one is a value of the other; the invalid-handle constants
`IS_INVALID_HIDS` and `IS_INVALID_HCAM` both equal `0`. -/
theorem hids_hcam_alias_and_invalid_handles_zero :
    HIDS = DWORD ∧ HCAM = DWORD ∧ HIDS = HCAM
      ∧ IS_INVALID_HIDS = 0 ∧ IS_INVALID_HCAM = 0
      ∧ IS_INVALID_HIDS = IS_INVALID_HCAM :=
  ⟨rfl, rfl, rfl, rfl, rfl, rfl⟩

/-- C7: `IS_RECT::area` returns the product `s32X * s32Y` of the corner
coordinates (in `i32` arithmetic), not the product of width and height,
and `Ord for IS_RECT` compares by that product; consequently two
rectangles with the same position but different widths or heights compare
`Equal`. -/
theorem rect_area_corner_product_cmp_eq_of_same_position (a b : IS_RECT)
    (hx : a.s32X = b.s32X) (hy : a.s32Y = b.s32Y) :
    a.area = wrap32 (a.s32X * a.s32Y) ∧ IS_RECT.cmp a b = Ordering.eq := by
  refine ⟨rfl, ?_⟩
  unfold IS_RECT.cmp IS_RECT.area
  rw [hx, hy]
  exact compare_eq_iff_eq.mpr rfl

/-- Witness for C7: at position `(2, 3)`, a `10 × 20` and a `999 × 1`
rectangle compare `Equal`. -/
theorem rect_cmp_same_position_witness :
    (⟨2, 3, 10, 20⟩ : IS_RECT).area = wrap32 (2 * 3)
      ∧ IS_RECT.cmp ⟨2, 3, 10, 20⟩ ⟨2, 3, 999, 1⟩ = Ordering.eq :=
  rect_area_corner_product_cmp_eq_of_same_position ⟨2, 3, 10, 20⟩
    ⟨2, 3, 999, 1⟩ rfl rfl

/-- C8: under the precondition `u32Min <= u32Max` (and `u32Max` in the
`u32` range), `IS_RANGE_U32::size` returns the exact mathematical
difference `u32Max - u32Min`, the subtraction does not underflow (the
panic branch is unreachable), and the size-based `Ord` comparison is the
comparison of the exact differences. -/
theorem range_u32_size_exact_no_underflow_of_le (a b : IS_RANGE_U32)
    (ha : a.u32Max < 2 ^ 32) (hb : b.u32Max < 2 ^ 32)
    (hale : a.u32Min ≤ a.u32Max) (hble : b.u32Min ≤ b.u32Max) :
    a.size = a.u32Max - a.u32Min ∧ ¬ a.underflows
      ∧ IS_RANGE_U32.cmp a b
          = compare (a.u32Max - a.u32Min) (b.u32Max - b.u32Min) := by
  have hsa : a.size = a.u32Max - a.u32Min := wrapped_sub_eq_sub _ _ ha hale
  have hsb : b.size = b.u32Max - b.u32Min := wrapped_sub_eq_sub _ _ hb hble
  refine ⟨hsa, Nat.not_lt.mpr hale, ?_⟩
  unfold IS_RANGE_U32.cmp
  rw [hsa, hsb]

/-- Witness for C8 at the concrete ranges `[3, 10]` and `[0, 7]`. -/
theorem range_u32_size_exact_no_underflow_of_le_witness :
    (⟨3, 10, 1⟩ : IS_RANGE_U32).size = 10 - 3
      ∧ ¬ (⟨3, 10, 1⟩ : IS_RANGE_U32).underflows
      ∧ IS_RANGE_U32.cmp ⟨3, 10, 1⟩ ⟨0, 7, 1⟩ = compare (10 - 3) (7 - 0) :=
  range_u32_size_exact_no_underflow_of_le ⟨3, 10, 1⟩ ⟨0, 7, 1⟩ (by decide)
    (by decide) (by decide) (by decide)

/-- C9: `to_wide(s)` returns a null-terminated wide-character vector: it
is non-empty, its last element is `0`, its length is the number of chars
of `s` plus one, and its `i`-th element is the code point of the `i`-th
char of `s`. -/
theorem to_wide_null_terminated_layout :
    (∀ s : List Char, to_wide s ≠ [] ∧ (to_wide s).getLast? = some 0
      ∧ (to_wide s).length = s.length + 1)
  ∧ (∀ (s : List Char) (i : Nat) (hi : i < s.length),
      (to_wide s)[i]? = some (s[i].toNat)) := by
  constructor
  · intro s
    exact ⟨by simp [to_wide], by simp [to_wide], by simp [to_wide]⟩
  · intro s i hi
    simp [to_wide, List.getElem?_append, hi, List.getElem?_map,
      List.getElem?_eq_getElem hi]

/-- Witness for C9: the empty string maps to the bare terminator `[0]`
(non-empty, last element `0`, length `0 + 1`), and on the concrete string
`"uEye"` the element at index `1` is the code point of the char `'E'`. -/
theorem to_wide_null_terminated_layout_witness :
    (to_wide ([] : List Char) ≠ []
      ∧ (to_wide ([] : List Char)).getLast? = some 0
      ∧ (to_wide ([] : List Char)).length = ([] : List Char).length + 1)
      ∧ (to_wide ['u', 'E', 'y', 'e'])[1]? = some ('E'.toNat) :=
  ⟨to_wide_null_terminated_layout.1 ([] : List Char),
    to_wide_null_terminated_layout.2 ['u', 'E', 'y', 'e'] 1 (by decide)⟩
